import Mathlib

/-!
Verification of the speech-to-text comparison server (Node.js) against its
specification.  The source is shallowly embedded: Node `Buffer`s become
`List Nat` of byte values, the stateful per-provider realtime sessions become
explicit state records with step functions returning an event trace, and the
file system touched by the batch adapters becomes an explicit list of paths.
Provider APIs (network calls) are opaque oracles passed in as parameters.
-/

namespace STT

/-- A byte buffer (Node `Buffer`), modelled as a list of byte values. -/
abbrev Buf := List Nat

/-! ## WAV encoding (`pcmToWav` in `services/openai-realtime.js`)

Node's `Buffer.alloc`, `Buffer.write` (ascii), `writeUInt32LE`, `writeUInt16LE`
are modelled byte-for-byte.  `writeUIntNLE` stores the value little-endian,
i.e. the bytes of `v % 2^N`. -/

/-- Little-endian 16-bit encoding, as `Buffer.writeUInt16LE` stores it. -/
def le16 (v : Nat) : List Nat := [v % 256, v / 256 % 256]

/-- Little-endian 32-bit encoding, as `Buffer.writeUInt32LE` stores it. -/
def le32 (v : Nat) : List Nat :=
  [v % 256, v / 256 % 256, v / 65536 % 256, v / 16777216 % 256]

/-- Read back a little-endian 16-bit value at byte offset `pos`. -/
def readLE16 (buf : List Nat) (pos : Nat) : Nat :=
  match buf.drop pos with
  | b0 :: b1 :: _ => b0 + 256 * b1
  | _ => 0

/-- Read back a little-endian 32-bit value at byte offset `pos`. -/
def readLE32 (buf : List Nat) (pos : Nat) : Nat :=
  match buf.drop pos with
  | b0 :: b1 :: b2 :: b3 :: _ => b0 + 256 * b1 + 65536 * b2 + 16777216 * b3
  | _ => 0

/-- Node `Buffer.alloc n`: `n` zero bytes. -/
def bufAlloc (n : Nat) : List Nat := List.replicate n 0

/-- Overwrite `bytes.length` bytes of `buf` starting at offset `pos`
(the common core of `Buffer.write` / `writeUInt32LE` / `writeUInt16LE`). -/
def writeBytesAt (buf : List Nat) (pos : Nat) (bytes : List Nat) : List Nat :=
  buf.take pos ++ bytes ++ buf.drop (pos + bytes.length)

/-- Node `buf.write(s, pos)` for an ascii string `s`. -/
def writeAscii (buf : List Nat) (s : String) (pos : Nat) : List Nat :=
  writeBytesAt buf pos (s.toList.map Char.toNat)

/-- Node `buf.writeUInt32LE(v, pos)`. -/
def writeUInt32LE (buf : List Nat) (v pos : Nat) : List Nat :=
  writeBytesAt buf pos (le32 v)

/-- Node `buf.writeUInt16LE(v, pos)`. -/
def writeUInt16LE (buf : List Nat) (v pos : Nat) : List Nat :=
  writeBytesAt buf pos (le16 v)

/-- `pcmToWav(pcmBuffer, sampleRate)` from `services/openai-realtime.js`:
allocates a 44-byte header, performs the same sequence of writes as the
source, and concatenates the header with the PCM payload. -/
def pcmToWav (pcmBuffer : Buf) (sampleRate : Nat) : Buf :=
  let h := bufAlloc 44
  let h := writeAscii h ("RIFF") 0
  let h := writeUInt32LE h (36 + pcmBuffer.length) 4
  let h := writeAscii h ("WAVE") 8
  let h := writeAscii h ("fmt ") 12
  let h := writeUInt32LE h 16 16
  let h := writeUInt16LE h 1 20
  let h := writeUInt16LE h 1 22
  let h := writeUInt32LE h sampleRate 24
  let h := writeUInt32LE h (sampleRate * 2) 28
  let h := writeUInt16LE h 2 32
  let h := writeUInt16LE h 16 34
  let h := writeAscii h ("data") 36
  let h := writeUInt32LE h pcmBuffer.length 40
  h ++ pcmBuffer

set_option maxHeartbeats 2000000 in
theorem pcmToWav_layout (pcm : Buf) (sr : Nat) :
    pcmToWav pcm sr =
      [82, 73, 70, 70] ++ le32 (36 + pcm.length) ++
      [87, 65, 86, 69] ++ [102, 109, 116, 32] ++
      le32 16 ++ le16 1 ++ le16 1 ++ le32 sr ++ le32 (sr * 2) ++
      le16 2 ++ le16 16 ++ [100, 97, 116, 97] ++ le32 pcm.length ++ pcm := by
  have e1 : writeAscii (bufAlloc 44) ("RIFF") 0
      = [82, 73, 70, 70] ++ List.replicate 40 0 := rfl
  have e2 : ∀ v : Nat, writeUInt32LE ([82, 73, 70, 70] ++ List.replicate 40 0) v 4
      = [82, 73, 70, 70] ++ le32 v ++ List.replicate 36 0 := fun _ => rfl
  have e3 : ∀ v : Nat,
      writeAscii ([82, 73, 70, 70] ++ le32 v ++ List.replicate 36 0) ("WAVE") 8
      = [82, 73, 70, 70] ++ le32 v ++ [87, 65, 86, 69] ++ List.replicate 32 0 :=
    fun _ => rfl
  have e4 : ∀ v : Nat,
      writeAscii ([82, 73, 70, 70] ++ le32 v ++ [87, 65, 86, 69] ++
        List.replicate 32 0) ("fmt ") 12
      = [82, 73, 70, 70] ++ le32 v ++ [87, 65, 86, 69] ++ [102, 109, 116, 32] ++
        List.replicate 28 0 := fun _ => rfl
  have e5 : ∀ v : Nat,
      writeUInt32LE ([82, 73, 70, 70] ++ le32 v ++ [87, 65, 86, 69] ++
        [102, 109, 116, 32] ++ List.replicate 28 0) 16 16
      = [82, 73, 70, 70] ++ le32 v ++ [87, 65, 86, 69] ++ [102, 109, 116, 32] ++
        le32 16 ++ List.replicate 24 0 := fun _ => rfl
  have e6 : ∀ v : Nat,
      writeUInt16LE ([82, 73, 70, 70] ++ le32 v ++ [87, 65, 86, 69] ++
        [102, 109, 116, 32] ++ le32 16 ++ List.replicate 24 0) 1 20
      = [82, 73, 70, 70] ++ le32 v ++ [87, 65, 86, 69] ++ [102, 109, 116, 32] ++
        le32 16 ++ le16 1 ++ List.replicate 22 0 := fun _ => rfl
  have e7 : ∀ v : Nat,
      writeUInt16LE ([82, 73, 70, 70] ++ le32 v ++ [87, 65, 86, 69] ++
        [102, 109, 116, 32] ++ le32 16 ++ le16 1 ++ List.replicate 22 0) 1 22
      = [82, 73, 70, 70] ++ le32 v ++ [87, 65, 86, 69] ++ [102, 109, 116, 32] ++
        le32 16 ++ le16 1 ++ le16 1 ++ List.replicate 20 0 := fun _ => rfl
  have e8 : ∀ v s : Nat,
      writeUInt32LE ([82, 73, 70, 70] ++ le32 v ++ [87, 65, 86, 69] ++
        [102, 109, 116, 32] ++ le32 16 ++ le16 1 ++ le16 1 ++
        List.replicate 20 0) s 24
      = [82, 73, 70, 70] ++ le32 v ++ [87, 65, 86, 69] ++ [102, 109, 116, 32] ++
        le32 16 ++ le16 1 ++ le16 1 ++ le32 s ++ List.replicate 16 0 :=
    fun _ _ => rfl
  have e9 : ∀ v s t : Nat,
      writeUInt32LE ([82, 73, 70, 70] ++ le32 v ++ [87, 65, 86, 69] ++
        [102, 109, 116, 32] ++ le32 16 ++ le16 1 ++ le16 1 ++ le32 s ++
        List.replicate 16 0) t 28
      = [82, 73, 70, 70] ++ le32 v ++ [87, 65, 86, 69] ++ [102, 109, 116, 32] ++
        le32 16 ++ le16 1 ++ le16 1 ++ le32 s ++ le32 t ++ List.replicate 12 0 :=
    fun _ _ _ => rfl
  have e10 : ∀ v s t : Nat,
      writeUInt16LE ([82, 73, 70, 70] ++ le32 v ++ [87, 65, 86, 69] ++
        [102, 109, 116, 32] ++ le32 16 ++ le16 1 ++ le16 1 ++ le32 s ++ le32 t ++
        List.replicate 12 0) 2 32
      = [82, 73, 70, 70] ++ le32 v ++ [87, 65, 86, 69] ++ [102, 109, 116, 32] ++
        le32 16 ++ le16 1 ++ le16 1 ++ le32 s ++ le32 t ++ le16 2 ++
        List.replicate 10 0 := fun _ _ _ => rfl
  have e11 : ∀ v s t : Nat,
      writeUInt16LE ([82, 73, 70, 70] ++ le32 v ++ [87, 65, 86, 69] ++
        [102, 109, 116, 32] ++ le32 16 ++ le16 1 ++ le16 1 ++ le32 s ++ le32 t ++
        le16 2 ++ List.replicate 10 0) 16 34
      = [82, 73, 70, 70] ++ le32 v ++ [87, 65, 86, 69] ++ [102, 109, 116, 32] ++
        le32 16 ++ le16 1 ++ le16 1 ++ le32 s ++ le32 t ++ le16 2 ++ le16 16 ++
        List.replicate 8 0 := fun _ _ _ => rfl
  have e12 : ∀ v s t : Nat,
      writeAscii ([82, 73, 70, 70] ++ le32 v ++ [87, 65, 86, 69] ++
        [102, 109, 116, 32] ++ le32 16 ++ le16 1 ++ le16 1 ++ le32 s ++ le32 t ++
        le16 2 ++ le16 16 ++ List.replicate 8 0) ("data") 36
      = [82, 73, 70, 70] ++ le32 v ++ [87, 65, 86, 69] ++ [102, 109, 116, 32] ++
        le32 16 ++ le16 1 ++ le16 1 ++ le32 s ++ le32 t ++ le16 2 ++ le16 16 ++
        [100, 97, 116, 97] ++ List.replicate 4 0 := fun _ _ _ => rfl
  have e13 : ∀ v s t w : Nat,
      writeUInt32LE ([82, 73, 70, 70] ++ le32 v ++ [87, 65, 86, 69] ++
        [102, 109, 116, 32] ++ le32 16 ++ le16 1 ++ le16 1 ++ le32 s ++ le32 t ++
        le16 2 ++ le16 16 ++ [100, 97, 116, 97] ++ List.replicate 4 0) w 40
      = [82, 73, 70, 70] ++ le32 v ++ [87, 65, 86, 69] ++ [102, 109, 116, 32] ++
        le32 16 ++ le16 1 ++ le16 1 ++ le32 s ++ le32 t ++ le16 2 ++ le16 16 ++
        [100, 97, 116, 97] ++ le32 w ++ List.replicate 0 0 := fun _ _ _ _ => rfl
  show writeUInt32LE (writeAscii (writeUInt16LE (writeUInt16LE (writeUInt32LE
      (writeUInt32LE (writeUInt16LE (writeUInt16LE (writeUInt32LE (writeAscii
      (writeAscii (writeUInt32LE (writeAscii (bufAlloc 44) ("RIFF") 0)
      (36 + pcm.length) 4) ("WAVE") 8) ("fmt ") 12) 16 16) 1 20) 1 22) sr 24)
      (sr * 2) 28) 2 32) 16 34) ("data") 36) pcm.length 40 ++ pcm = _
  rw [e1, e2, e3, e4, e5, e6, e7, e8, e9, e10, e11, e12, e13]
  simp [le32, le16]

theorem readLE32_round (v : Nat) (hv : v < 4294967296) :
    v % 256 + 256 * (v / 256 % 256) + 65536 * (v / 65536 % 256) +
      16777216 * (v / 16777216 % 256) = v := by
  omega

set_option maxHeartbeats 2000000 in
/-- C9: for the chunk-batching adapter, `pcmToWav(pcmBuffer, sampleRate)`
produces a fixed 44-byte header followed by the unmodified PCM bytes; the
header encodes audio format 1 (PCM), 1 channel, the given sample rate, 16-bit
depth, byte rate `sampleRate * 2`, data byte count `pcmBuffer.length`, and
RIFF size `36 + pcmBuffer.length`. -/
theorem C9_pcmToWav_header (pcm : Buf) (sr : Nat)
    (hsr : sr * 2 < 4294967296) (hlen : 36 + pcm.length < 4294967296) :
    (pcmToWav pcm sr).length = 44 + pcm.length ∧
    (pcmToWav pcm sr).take 4 = [82, 73, 70, 70] ∧
    (pcmToWav pcm sr).drop 44 = pcm ∧
    readLE32 (pcmToWav pcm sr) 4 = 36 + pcm.length ∧
    readLE16 (pcmToWav pcm sr) 20 = 1 ∧
    readLE16 (pcmToWav pcm sr) 22 = 1 ∧
    readLE32 (pcmToWav pcm sr) 24 = sr ∧
    readLE32 (pcmToWav pcm sr) 28 = sr * 2 ∧
    readLE16 (pcmToWav pcm sr) 34 = 16 ∧
    readLE32 (pcmToWav pcm sr) 40 = pcm.length := by
  refine ⟨?_, ?_, ?_, ?_, ?_, ?_, ?_, ?_, ?_, ?_⟩
  · rw [pcmToWav_layout]; simp [le32, le16]; omega
  · rw [pcmToWav_layout]; rfl
  · rw [pcmToWav_layout]; rfl
  · rw [pcmToWav_layout]; exact readLE32_round (36 + pcm.length) (by omega)
  · rw [pcmToWav_layout]; rfl
  · rw [pcmToWav_layout]; rfl
  · rw [pcmToWav_layout]; exact readLE32_round sr (by omega)
  · rw [pcmToWav_layout]; exact readLE32_round (sr * 2) (by omega)
  · rw [pcmToWav_layout]; rfl
  · rw [pcmToWav_layout]; exact readLE32_round pcm.length (by omega)

set_option maxHeartbeats 2000000 in
/-- Witness for C9 at a concrete input: a 2-byte PCM payload at 16 kHz. -/
theorem C9_pcmToWav_header_witness :
    readLE32 (pcmToWav [7, 8] 16000) 24 = 16000 ∧
    readLE32 (pcmToWav [7, 8] 16000) 28 = 32000 ∧
    (pcmToWav [7, 8] 16000).drop 44 = [7, 8] ∧
    readLE32 (pcmToWav [7, 8] 16000) 40 = 2 := by
  have h := C9_pcmToWav_header [7, 8] 16000 (by norm_num) (by norm_num)
  exact ⟨h.2.2.2.2.2.2.1, h.2.2.2.2.2.2.2.1, h.2.2.1, h.2.2.2.2.2.2.2.2.2⟩

/-! ## OpenAI pseudo-realtime session (`services/openai-realtime.js`)

The session object of `createRealtimeSession` is a record; its methods are
step functions returning the updated record together with a trace of
observable events.  The outside world (file system and OpenAI API) inside
`processAudioChunk` is abstracted by an oracle `api` that says, per chunk,
whether the body runs to completion with a transcript or throws at the
temp-file write, at the API call, or at the temp-file cleanup. -/

/-- Outcome of the body of one `processAudioChunk` call. -/
inductive ChunkOutcome
  | ok (text : String)
  | failWrite
  | failApi
  | failUnlink (text : String)
deriving DecidableEq

/-- True when the body runs to completion (no exception). -/
def ChunkOutcome.isOk : ChunkOutcome → Bool
  | .ok _ => true
  | _ => false

/-- Mutable state of the session object in `services/openai-realtime.js`. -/
structure OASession where
  isActive : Bool
  audioBuffer : List Buf
  intervalRunning : Bool
  lastProcessedText : String
deriving DecidableEq

/-- Observable events of the OpenAI pseudo-realtime session. -/
inductive OAEvent
  | chunkStarted (pcm : Buf)
  | tempWritten (wav : Buf)
  | apiCalled (wav : Buf)
  | tempUnlinked
  | resultEmitted (text : String) (isFinal : Bool)
  | errorLogged
  | serviceErrorEmitted (message : String)
  | markedInactive
  | intervalCleared
deriving DecidableEq

/-- `processAudioChunk(pcmBuffer)`: converts the PCM to WAV, writes a temp
file, transcribes it, unlinks the file, stores the transcript in
`lastProcessedText` and emits it with `isFinal = true`.  Any exception is
caught by the surrounding `try`/`catch`, whose only effect is a
`console.error` (`errorLogged`): no result and no socket event is emitted,
and the state is left as it was. -/
def processAudioChunk (sampleRate : Nat) (api : Buf → ChunkOutcome)
    (s : OASession) (pcmBuffer : Buf) : OASession × List OAEvent :=
  let wav := pcmToWav pcmBuffer sampleRate
  match api pcmBuffer with
  | .failWrite => (s, [.chunkStarted pcmBuffer, .errorLogged])
  | .failApi =>
      (s, [.chunkStarted pcmBuffer, .tempWritten wav, .apiCalled wav, .errorLogged])
  | .failUnlink _ =>
      (s, [.chunkStarted pcmBuffer, .tempWritten wav, .apiCalled wav, .errorLogged])
  | .ok t =>
      ({s with lastProcessedText := t},
       [.chunkStarted pcmBuffer, .tempWritten wav, .apiCalled wav, .tempUnlinked,
        .resultEmitted t true])

/-- `sendAudio(pcmBuffer)`: returns immediately when the session is not
active; otherwise pushes the frame and makes sure the processing interval
runs. -/
def oaSendAudio (s : OASession) (frame : Buf) : OASession × List OAEvent :=
  if s.isActive then
    ({s with audioBuffer := s.audioBuffer ++ [frame], intervalRunning := true}, [])
  else (s, [])

/-- One firing of the 250 ms `setInterval` callback installed by
`startProcessing`: if at least `bytesPerSecond = sampleRate * 2` bytes are
buffered, the buffers are combined, exactly one second of audio is processed,
and any remainder beyond the one-second boundary is pushed back. -/
def oaTick (sampleRate : Nat) (api : Buf → ChunkOutcome)
    (s : OASession) : OASession × List OAEvent :=
  if s.audioBuffer = [] then (s, [])
  else
    let bytesPerSecond := sampleRate * 2
    let currentBufferSize := (s.audioBuffer.map List.length).sum
    if bytesPerSecond ≤ currentBufferSize then
      let combinedBuffer := s.audioBuffer.flatten
      if bytesPerSecond < combinedBuffer.length then
        processAudioChunk sampleRate api
          {s with audioBuffer := [combinedBuffer.drop bytesPerSecond]}
          (combinedBuffer.take bytesPerSecond)
      else
        processAudioChunk sampleRate api {s with audioBuffer := []} combinedBuffer
    else (s, [])

/-- `close()`: marks the session inactive, clears the interval, then
processes whatever audio is still buffered as one last chunk, and finally
empties the buffer. -/
def oaClose (sampleRate : Nat) (api : Buf → ChunkOutcome)
    (s : OASession) : OASession × List OAEvent :=
  let s1 : OASession := {s with isActive := false}
  let step2 : OASession × List OAEvent :=
    if s1.intervalRunning then ({s1 with intervalRunning := false}, [.intervalCleared])
    else (s1, [])
  let step3 : OASession × List OAEvent :=
    if step2.1.audioBuffer ≠ [] then
      let remainingBuffer := step2.1.audioBuffer.flatten
      if 0 < remainingBuffer.length then
        processAudioChunk sampleRate api step2.1 remainingBuffer
      else (step2.1, [])
    else (step2.1, [])
  ({step3.1 with audioBuffer := []}, .markedInactive :: (step2.2 ++ step3.2))

/-- The PCM chunks handed to `processAudioChunk` in an event trace. -/
def processedChunks (evts : List OAEvent) : List Buf :=
  evts.filterMap fun e =>
    match e with
    | .chunkStarted c => some c
    | _ => none

theorem processedChunks_processAudioChunk (sampleRate : Nat)
    (api : Buf → ChunkOutcome) (s : OASession) (pcm : Buf) :
    processedChunks (processAudioChunk sampleRate api s pcm).2 = [pcm] := by
  unfold processAudioChunk
  cases api pcm <;> simp [processedChunks]

theorem processAudioChunk_state (sampleRate : Nat) (api : Buf → ChunkOutcome)
    (s : OASession) (pcm : Buf) :
    (processAudioChunk sampleRate api s pcm).1.audioBuffer = s.audioBuffer ∧
    (processAudioChunk sampleRate api s pcm).1.isActive = s.isActive ∧
    (processAudioChunk sampleRate api s pcm).1.intervalRunning = s.intervalRunning := by
  unfold processAudioChunk
  cases api pcm <;> simp

theorem oaTick_empty (sampleRate : Nat) (api : Buf → ChunkOutcome) (s : OASession)
    (hb : s.audioBuffer = []) : oaTick sampleRate api s = (s, []) := by
  unfold oaTick
  simp [hb]

theorem oaTick_small (sampleRate : Nat) (api : Buf → ChunkOutcome) (s : OASession)
    (h : (s.audioBuffer.map List.length).sum < sampleRate * 2) :
    oaTick sampleRate api s = (s, []) := by
  unfold oaTick
  by_cases hb : s.audioBuffer = []
  · simp [hb]
  · simp [hb, Nat.not_le.mpr h]

theorem oaTick_exact (sampleRate : Nat) (api : Buf → ChunkOutcome) (s : OASession)
    (hsr : 0 < sampleRate)
    (h : (s.audioBuffer.map List.length).sum = sampleRate * 2) :
    oaTick sampleRate api s
      = processAudioChunk sampleRate api {s with audioBuffer := []}
          s.audioBuffer.flatten := by
  have hb : s.audioBuffer ≠ [] := by
    intro hb
    rw [hb] at h
    simp at h
    omega
  have hlen : s.audioBuffer.flatten.length = sampleRate * 2 := by
    rw [List.length_flatten]
    exact h
  unfold oaTick
  simp [hb, h, hlen]

theorem oaTick_over (sampleRate : Nat) (api : Buf → ChunkOutcome) (s : OASession)
    (h : sampleRate * 2 ≤ (s.audioBuffer.map List.length).sum)
    (hover : sampleRate * 2 < s.audioBuffer.flatten.length) :
    oaTick sampleRate api s
      = processAudioChunk sampleRate api
          {s with audioBuffer := [s.audioBuffer.flatten.drop (sampleRate * 2)]}
          (s.audioBuffer.flatten.take (sampleRate * 2)) := by
  have hb : s.audioBuffer ≠ [] := by
    intro hb
    rw [hb] at hover
    simp at hover
  have hflat := List.length_flatten s.audioBuffer
  have hover2 : sampleRate * 2 < (s.audioBuffer.map List.length).sum := by omega
  unfold oaTick
  simp [hb, h, hover, hover2]

/-- C1: for the chunk-batching (openai) realtime session, audio frames
accumulate until the buffered byte count reaches one second of audio
(`sampleRate * 2` bytes); each processed chunk consumes exactly
`bytesPerSecond` bytes; leftover bytes past the one-second boundary are
carried into the next cycle; frames summing to exactly the threshold yield
one chunk with zero leftover, and frames summing to exactly twice the
threshold yield exactly two processed chunks across two interval firings
with no byte lost or duplicated across the boundary. -/
theorem C1_chunk_accumulation (sampleRate : Nat) (api : Buf → ChunkOutcome)
    (hsr : 0 < sampleRate) :
    (∀ s : OASession, (s.audioBuffer.map List.length).sum < sampleRate * 2 →
      oaTick sampleRate api s = (s, [])) ∧
    (∀ s : OASession, ∀ c ∈ processedChunks (oaTick sampleRate api s).2,
      c.length = sampleRate * 2 ∧
      c ++ (oaTick sampleRate api s).1.audioBuffer.flatten = s.audioBuffer.flatten) ∧
    (∀ s : OASession, (s.audioBuffer.map List.length).sum = sampleRate * 2 →
      processedChunks (oaTick sampleRate api s).2 = [s.audioBuffer.flatten] ∧
      (oaTick sampleRate api s).1.audioBuffer = []) ∧
    (∀ s : OASession, (s.audioBuffer.map List.length).sum = 2 * (sampleRate * 2) →
      processedChunks (oaTick sampleRate api s).2
        = [s.audioBuffer.flatten.take (sampleRate * 2)] ∧
      processedChunks (oaTick sampleRate api (oaTick sampleRate api s).1).2
        = [s.audioBuffer.flatten.drop (sampleRate * 2)] ∧
      s.audioBuffer.flatten.take (sampleRate * 2) ++
        s.audioBuffer.flatten.drop (sampleRate * 2) = s.audioBuffer.flatten ∧
      (oaTick sampleRate api (oaTick sampleRate api s).1).1.audioBuffer = [] ∧
      (s.audioBuffer.flatten.take (sampleRate * 2)).length = sampleRate * 2 ∧
      (s.audioBuffer.flatten.drop (sampleRate * 2)).length = sampleRate * 2) := by
  have hflat : ∀ s : OASession,
      s.audioBuffer.flatten.length = (s.audioBuffer.map List.length).sum :=
    fun s => List.length_flatten s.audioBuffer
  refine ⟨fun s h => oaTick_small sampleRate api s h, ?_, ?_, ?_⟩
  · intro s c hc
    by_cases hb : s.audioBuffer = []
    · rw [oaTick_empty sampleRate api s hb] at hc
      simp [processedChunks] at hc
    · by_cases hle : sampleRate * 2 ≤ (s.audioBuffer.map List.length).sum
      · by_cases hover : sampleRate * 2 < s.audioBuffer.flatten.length
        · rw [oaTick_over sampleRate api s hle hover] at hc ⊢
          rw [processedChunks_processAudioChunk] at hc
          simp at hc
          subst hc
          constructor
          · rw [List.length_take]
            omega
          · rw [(processAudioChunk_state _ _ _ _).1]
            simp
        · have hlen : s.audioBuffer.flatten.length = sampleRate * 2 := by
            have := hflat s
            omega
          have hexact : (s.audioBuffer.map List.length).sum = sampleRate * 2 := by
            have := hflat s
            omega
          rw [oaTick_exact sampleRate api s hsr hexact] at hc ⊢
          rw [processedChunks_processAudioChunk] at hc
          simp at hc
          subst hc
          constructor
          · exact hlen
          · rw [(processAudioChunk_state _ _ _ _).1]
            simp
      · rw [oaTick_small sampleRate api s (Nat.not_le.mp hle)] at hc
        simp [processedChunks] at hc
  · intro s h
    rw [oaTick_exact sampleRate api s hsr h]
    constructor
    · exact processedChunks_processAudioChunk _ _ _ _
    · rw [(processAudioChunk_state _ _ _ _).1]
  · intro s h
    have hover : sampleRate * 2 < s.audioBuffer.flatten.length := by
      have := hflat s
      omega
    have hle : sampleRate * 2 ≤ (s.audioBuffer.map List.length).sum := by omega
    have htick1 := oaTick_over sampleRate api s hle hover
    have hbuf1 : (oaTick sampleRate api s).1.audioBuffer
        = [s.audioBuffer.flatten.drop (sampleRate * 2)] := by
      rw [htick1, (processAudioChunk_state _ _ _ _).1]
    have hsum1 : ((oaTick sampleRate api s).1.audioBuffer.map List.length).sum
        = sampleRate * 2 := by
      rw [hbuf1]
      simp
      have := hflat s
      omega
    have htick2 := oaTick_exact sampleRate api (oaTick sampleRate api s).1 hsr hsum1
    refine ⟨?_, ?_, List.take_append_drop _ _, ?_, ?_, ?_⟩
    · rw [htick1]
      exact processedChunks_processAudioChunk _ _ _ _
    · rw [htick2, processedChunks_processAudioChunk, hbuf1]
      simp
    · rw [htick2, (processAudioChunk_state _ _ _ _).1]
    · rw [List.length_take]
      have := hflat s
      omega
    · rw [List.length_drop]
      have := hflat s
      omega

/-- Witness for C1: four 2-byte frames at a 2 Hz sample rate (threshold
4 bytes) yield two chunks of 4 bytes across two firings, and the spec's
example of four 8000-byte frames at 16 kHz yields exactly one chunk
consuming everything with zero leftover. -/
theorem C1_chunk_accumulation_witness :
    processedChunks (oaTick 2 (fun _ => ChunkOutcome.ok "t")
        ⟨true, [[1, 2], [3, 4], [5, 6], [7, 8]], true, ""⟩).2 = [[1, 2, 3, 4]] ∧
    processedChunks (oaTick 2 (fun _ => ChunkOutcome.ok "t")
        (oaTick 2 (fun _ => ChunkOutcome.ok "t")
          ⟨true, [[1, 2], [3, 4], [5, 6], [7, 8]], true, ""⟩).1).2 = [[5, 6, 7, 8]] ∧
    processedChunks (oaTick 16000 (fun _ => ChunkOutcome.ok "t")
        ⟨true, List.replicate 4 (List.replicate 8000 0), true, ""⟩).2
      = [(List.replicate 4 (List.replicate 8000 (0 : Nat))).flatten] ∧
    (oaTick 16000 (fun _ => ChunkOutcome.ok "t")
        ⟨true, List.replicate 4 (List.replicate 8000 0), true, ""⟩).1.audioBuffer
      = [] := by
  have h4 := (C1_chunk_accumulation 2 (fun _ => ChunkOutcome.ok "t") (by decide)).2.2.2
      ⟨true, [[1, 2], [3, 4], [5, 6], [7, 8]], true, ""⟩ (by decide)
  have h1 := (C1_chunk_accumulation 16000 (fun _ => ChunkOutcome.ok "t") (by decide)).2.2.1
      ⟨true, List.replicate 4 (List.replicate 8000 0), true, ""⟩
      (by rw [List.map_replicate, List.length_replicate, List.sum_replicate, smul_eq_mul])
  refine ⟨?_, ?_, h1.1, h1.2⟩
  · rw [h4.1]
    decide
  · rw [h4.2.1]
    decide

/-- True exactly on a transcript event flagged final. -/
def isFinalResult : OAEvent → Bool
  | .resultEmitted _ true => true
  | _ => false

/-- True exactly on the event recording the `isActive = false` assignment. -/
def isMarkedInactive : OAEvent → Bool
  | .markedInactive => true
  | _ => false

theorem oaClose_ok (sampleRate : Nat) (api : Buf → ChunkOutcome) (s : OASession)
    (t : String) (hb : s.audioBuffer ≠ [])
    (hlen : 0 < s.audioBuffer.flatten.length)
    (hapi : api s.audioBuffer.flatten = ChunkOutcome.ok t) :
    oaClose sampleRate api s =
      ({isActive := false, audioBuffer := [], intervalRunning := false,
        lastProcessedText := t},
       OAEvent.markedInactive ::
         ((if s.intervalRunning then [OAEvent.intervalCleared] else []) ++
          [OAEvent.chunkStarted s.audioBuffer.flatten,
           OAEvent.tempWritten (pcmToWav s.audioBuffer.flatten sampleRate),
           OAEvent.apiCalled (pcmToWav s.audioBuffer.flatten sampleRate),
           OAEvent.tempUnlinked,
           OAEvent.resultEmitted t true])) := by
  have hlen2 : 0 < (s.audioBuffer.map List.length).sum := by
    have := List.length_flatten s.audioBuffer
    omega
  by_cases hint : s.intervalRunning <;>
    simp [oaClose, hint, hb, hlen2, processAudioChunk, hapi]

/-- Session and oracle for the C3 counterexample: an active session holding
two unprocessed bytes, with a provider that transcribes successfully. -/
def c3Session : OASession := ⟨true, [[1, 2]], true, ""⟩

/-- Oracle for the C3 counterexample: every chunk transcribes to a fixed
text. -/
def c3Api : Buf → ChunkOutcome := fun _ => ChunkOutcome.ok "hello"

/-- Counterexample to C3 as stated: on `close()` with buffered audio the
session does flush and emit a final result, but the `isActive = false`
assignment (the session being marked closed) happens first, so the final
result is not delivered before the session is marked inactive. -/
theorem C3_counterexample :
    ((oaClose 16000 c3Api c3Session).2.any isFinalResult = true) ∧
    ((oaClose 16000 c3Api c3Session).2.any isMarkedInactive = true) ∧
    ¬ ((oaClose 16000 c3Api c3Session).2.findIdx isFinalResult
        < (oaClose 16000 c3Api c3Session).2.findIdx isMarkedInactive) := by
  decide

/-- C3 (amended): calling `close()` while the internal buffer holds
unprocessed audio submits the buffered remainder as one more chunk and
delivers a final (`isFinal = true`) result for it, and the session ends
inactive with an empty buffer — but the session is marked inactive at the
start of `close()`, before (not after) the remainder is flushed. -/
theorem C3_close_flushes (sampleRate : Nat) (api : Buf → ChunkOutcome)
    (s : OASession) (t : String)
    (hbuf : 0 < s.audioBuffer.flatten.length)
    (hapi : api s.audioBuffer.flatten = ChunkOutcome.ok t) :
    OAEvent.chunkStarted s.audioBuffer.flatten ∈ (oaClose sampleRate api s).2 ∧
    OAEvent.resultEmitted t true ∈ (oaClose sampleRate api s).2 ∧
    (oaClose sampleRate api s).1.isActive = false ∧
    (oaClose sampleRate api s).1.audioBuffer = [] ∧
    (oaClose sampleRate api s).2.findIdx isMarkedInactive
      < (oaClose sampleRate api s).2.findIdx isFinalResult := by
  have hb : s.audioBuffer ≠ [] := by
    intro hb
    rw [hb] at hbuf
    simp at hbuf
  rw [oaClose_ok sampleRate api s t hb hbuf hapi]
  refine ⟨by simp, by simp, rfl, rfl, ?_⟩
  simp [List.findIdx_cons, isMarkedInactive, isFinalResult]

/-- Witness for C3 (amended) at a concrete input: one buffered byte, a
transcribing provider. -/
theorem C3_close_flushes_witness :
    OAEvent.chunkStarted (⟨true, [[9]], false, ""⟩ : OASession).audioBuffer.flatten
        ∈ (oaClose 1 (fun _ => ChunkOutcome.ok "z") ⟨true, [[9]], false, ""⟩).2 ∧
    OAEvent.resultEmitted "z" true
        ∈ (oaClose 1 (fun _ => ChunkOutcome.ok "z") ⟨true, [[9]], false, ""⟩).2 ∧
    (oaClose 1 (fun _ => ChunkOutcome.ok "z") ⟨true, [[9]], false, ""⟩).1.isActive
        = false ∧
    (oaClose 1 (fun _ => ChunkOutcome.ok "z") ⟨true, [[9]], false, ""⟩).1.audioBuffer
        = [] ∧
    (oaClose 1 (fun _ => ChunkOutcome.ok "z") ⟨true, [[9]], false, ""⟩).2.findIdx
        isMarkedInactive
      < (oaClose 1 (fun _ => ChunkOutcome.ok "z") ⟨true, [[9]], false, ""⟩).2.findIdx
        isFinalResult :=
  C3_close_flushes 1 (fun _ => ChunkOutcome.ok "z") ⟨true, [[9]], false, ""⟩ "z"
    (by decide) (by decide)

/-! ## Deepgram realtime session (`services/deepgram-realtime.js`) -/

/-- Mutable state of the Deepgram realtime session object. -/
structure DGSession where
  isConnected : Bool
deriving DecidableEq

/-- Observable events of the Deepgram realtime session. -/
inductive DGEvent
  | sent (frame : Buf)
  | finishCalled
deriving DecidableEq

/-- `sendAudio` of the Deepgram session: forwards raw PCM over the live
connection only while connected. -/
def dgSendAudio (s : DGSession) (frame : Buf) : DGSession × List DGEvent :=
  if s.isConnected then (s, [.sent frame]) else (s, [])

/-- `close` of the Deepgram session: calls `connection.finish()` when
connected, then records the session as disconnected. -/
def dgClose (s : DGSession) : DGSession × List DGEvent :=
  if s.isConnected then (⟨false⟩, [.finishCalled]) else (⟨false⟩, [])

/-! ## AssemblyAI realtime session (`services/assemblyai-realtime.js`) -/

/-- WebSocket ready states. -/
inductive WSReadyState
  | connecting
  | wsOpen
  | closing
  | wsClosed
deriving DecidableEq

/-- Mutable state of the AssemblyAI realtime session object. -/
structure AAISession where
  isConnected : Bool
  readyState : WSReadyState
deriving DecidableEq

/-- Observable events of the AssemblyAI realtime session. -/
inductive AAIEvent
  | sentAudio (frame : Buf)
  | sentTermination
  | wsCloseCalled
deriving DecidableEq

/-- `sendAudio` of the AssemblyAI session: forwards the raw binary frame
only while connected and the WebSocket is open. -/
def aaiSendAudio (s : AAISession) (frame : Buf) : AAISession × List AAIEvent :=
  if s.isConnected = true ∧ s.readyState = .wsOpen then (s, [.sentAudio frame])
  else (s, [])

/-- `close` of the AssemblyAI session: when the WebSocket is open it sends a
termination message and calls `ws.close()` (moving the socket to `closing`),
and in every case records the session as disconnected. -/
def aaiClose (s : AAISession) : AAISession × List AAIEvent :=
  if s.readyState = .wsOpen then
    ({isConnected := false, readyState := .closing}, [.sentTermination, .wsCloseCalled])
  else ({s with isConnected := false}, [])

theorem oaClose_inactive (sampleRate : Nat) (api : Buf → ChunkOutcome)
    (s : OASession) : (oaClose sampleRate api s).1.isActive = false := by
  unfold oaClose
  by_cases hint : s.intervalRunning <;>
    by_cases hb : s.audioBuffer = [] <;>
      simp [hint, hb] <;>
        split <;>
          simp [(processAudioChunk_state _ _ _ _).2.1]

/-- C8: for every realtime session of every provider, once the session has
been closed, `sendAudio(frame)` is a no-op: it forwards nothing to the
provider, mutates no session state, and never throws. -/
theorem C8_sendAudio_noop_after_close :
    (∀ (sampleRate : Nat) (api : Buf → ChunkOutcome) (s : OASession) (frame : Buf),
      oaSendAudio (oaClose sampleRate api s).1 frame
        = ((oaClose sampleRate api s).1, [])) ∧
    (∀ (s : DGSession) (frame : Buf),
      dgSendAudio (dgClose s).1 frame = ((dgClose s).1, [])) ∧
    (∀ (s : AAISession) (frame : Buf),
      aaiSendAudio (aaiClose s).1 frame = ((aaiClose s).1, [])) := by
  refine ⟨?_, ?_, ?_⟩
  · intro sampleRate api s frame
    unfold oaSendAudio
    simp [oaClose_inactive]
  · intro s frame
    unfold dgClose dgSendAudio
    by_cases h : s.isConnected <;> simp [h]
  · intro s frame
    unfold aaiClose aaiSendAudio
    by_cases h : s.readyState = .wsOpen <;> simp [h]

theorem processAudioChunk_fail (sampleRate : Nat) (api : Buf → ChunkOutcome)
    (s : OASession) (pcm : Buf) (h : (api pcm).isOk = false) :
    (processAudioChunk sampleRate api s pcm).1 = s ∧
    OAEvent.errorLogged ∈ (processAudioChunk sampleRate api s pcm).2 ∧
    (∀ t f, OAEvent.resultEmitted t f ∉ (processAudioChunk sampleRate api s pcm).2) ∧
    (∀ m, OAEvent.serviceErrorEmitted m ∉ (processAudioChunk sampleRate api s pcm).2) := by
  unfold processAudioChunk
  cases hc : api pcm with
  | ok t => rw [hc] at h; simp [ChunkOutcome.isOk] at h
  | failWrite => simp
  | failApi => simp
  | failUnlink t => simp

/-- C10: in the chunk-batching (openai) realtime session, when submitting a
buffered chunk fails anywhere inside `processAudioChunk`, the error is
logged and swallowed: no transcript result and no provider-scoped error
event is emitted, the chunk's bytes are dropped from the buffer, and the
session stays active and keeps accepting subsequent frames. -/
theorem C10_chunk_failure_swallowed (sampleRate : Nat) (api : Buf → ChunkOutcome)
    (s : OASession) (frame : Buf)
    (hact : s.isActive = true)
    (hne : s.audioBuffer ≠ [])
    (hsize : sampleRate * 2 ≤ (s.audioBuffer.map List.length).sum)
    (hfail : ∀ c, (api c).isOk = false) :
    OAEvent.errorLogged ∈ (oaTick sampleRate api s).2 ∧
    (∀ t f, OAEvent.resultEmitted t f ∉ (oaTick sampleRate api s).2) ∧
    (∀ m, OAEvent.serviceErrorEmitted m ∉ (oaTick sampleRate api s).2) ∧
    (oaTick sampleRate api s).1.isActive = true ∧
    (oaTick sampleRate api s).1.lastProcessedText = s.lastProcessedText ∧
    (∃ c, processedChunks (oaTick sampleRate api s).2 = [c] ∧
      c ++ (oaTick sampleRate api s).1.audioBuffer.flatten = s.audioBuffer.flatten) ∧
    oaSendAudio (oaTick sampleRate api s).1 frame
      = ({(oaTick sampleRate api s).1 with
            audioBuffer := (oaTick sampleRate api s).1.audioBuffer ++ [frame],
            intervalRunning := true}, []) := by
  have hflat := List.length_flatten s.audioBuffer
  by_cases hover : sampleRate * 2 < s.audioBuffer.flatten.length
  · rw [oaTick_over sampleRate api s hsize hover]
    have hf := processAudioChunk_fail sampleRate api
      {s with audioBuffer := [s.audioBuffer.flatten.drop (sampleRate * 2)]}
      (s.audioBuffer.flatten.take (sampleRate * 2))
      (hfail _)
    rw [hf.1]
    refine ⟨hf.2.1, hf.2.2.1, hf.2.2.2, hact, rfl, ?_, ?_⟩
    · refine ⟨s.audioBuffer.flatten.take (sampleRate * 2), ?_, ?_⟩
      · exact processedChunks_processAudioChunk _ _ _ _
      · simp
    · unfold oaSendAudio
      simp [hact]
  · have hexact : (s.audioBuffer.map List.length).sum = sampleRate * 2 := by omega
    have hsr0 : 0 < sampleRate ∨ sampleRate = 0 := by omega
    rcases hsr0 with hsr | hsr
    · rw [oaTick_exact sampleRate api s hsr hexact]
      have hf := processAudioChunk_fail sampleRate api
        {s with audioBuffer := []} s.audioBuffer.flatten (hfail _)
      rw [hf.1]
      refine ⟨hf.2.1, hf.2.2.1, hf.2.2.2, hact, rfl, ?_, ?_⟩
      · refine ⟨s.audioBuffer.flatten, ?_, ?_⟩
        · exact processedChunks_processAudioChunk _ _ _ _
        · simp
      · unfold oaSendAudio
        simp [hact]
    · have hzero : s.audioBuffer.flatten.length = 0 := by omega
      have hcomb : s.audioBuffer.flatten = [] := List.length_eq_zero.mp hzero
      have htick : oaTick sampleRate api s
          = processAudioChunk sampleRate api {s with audioBuffer := []}
              s.audioBuffer.flatten := by
        unfold oaTick
        simp [hne, hsr, hexact, hzero]
      rw [htick]
      have hf := processAudioChunk_fail sampleRate api
        {s with audioBuffer := []} s.audioBuffer.flatten (hfail _)
      rw [hf.1]
      refine ⟨hf.2.1, hf.2.2.1, hf.2.2.2, hact, rfl, ?_, ?_⟩
      · refine ⟨s.audioBuffer.flatten, ?_, ?_⟩
        · exact processedChunks_processAudioChunk _ _ _ _
        · simp
      · unfold oaSendAudio
        simp [hact]

/-- Witness for C10 at a concrete input: three buffered bytes at threshold
two, with a provider whose API call always throws. -/
theorem C10_chunk_failure_swallowed_witness :
    OAEvent.errorLogged
        ∈ (oaTick 1 (fun _ => ChunkOutcome.failApi) ⟨true, [[5, 6, 7]], true, "x"⟩).2 ∧
    (∀ t f, OAEvent.resultEmitted t f
        ∉ (oaTick 1 (fun _ => ChunkOutcome.failApi) ⟨true, [[5, 6, 7]], true, "x"⟩).2) ∧
    (∀ m, OAEvent.serviceErrorEmitted m
        ∉ (oaTick 1 (fun _ => ChunkOutcome.failApi) ⟨true, [[5, 6, 7]], true, "x"⟩).2) ∧
    (oaTick 1 (fun _ => ChunkOutcome.failApi)
        ⟨true, [[5, 6, 7]], true, "x"⟩).1.isActive = true ∧
    (oaTick 1 (fun _ => ChunkOutcome.failApi)
        ⟨true, [[5, 6, 7]], true, "x"⟩).1.lastProcessedText
      = (⟨true, [[5, 6, 7]], true, "x"⟩ : OASession).lastProcessedText ∧
    (∃ c, processedChunks
        (oaTick 1 (fun _ => ChunkOutcome.failApi) ⟨true, [[5, 6, 7]], true, "x"⟩).2
          = [c] ∧
      c ++ (oaTick 1 (fun _ => ChunkOutcome.failApi)
          ⟨true, [[5, 6, 7]], true, "x"⟩).1.audioBuffer.flatten
        = (⟨true, [[5, 6, 7]], true, "x"⟩ : OASession).audioBuffer.flatten) ∧
    oaSendAudio (oaTick 1 (fun _ => ChunkOutcome.failApi)
        ⟨true, [[5, 6, 7]], true, "x"⟩).1 [9]
      = ({(oaTick 1 (fun _ => ChunkOutcome.failApi)
            ⟨true, [[5, 6, 7]], true, "x"⟩).1 with
            audioBuffer := (oaTick 1 (fun _ => ChunkOutcome.failApi)
              ⟨true, [[5, 6, 7]], true, "x"⟩).1.audioBuffer ++ [[9]],
            intervalRunning := true}, []) :=
  C10_chunk_failure_swallowed 1 (fun _ => ChunkOutcome.failApi)
    ⟨true, [[5, 6, 7]], true, "x"⟩ [9] rfl (by decide) (by decide) (fun _ => rfl)


/-! ## File-system model and batch adapters

`transcribeBatch` of `services/assemblyai-batch.js` and
`services/openai-batch.js` writes the uploaded audio to a temp file before
calling the provider, so the file system is modelled as the list of existing
upload paths.  `crypto.randomBytes(16).toString('hex')` produces a fresh
name on every call; this draw sequence is modelled by a counter, successive
draws giving distinct names. -/

/-- The set of existing upload files. -/
abbrev FS := List String

/-- Create or truncate a file (`fs.writeFile`). -/
def fsWrite (fs : FS) (p : String) : FS := if p ∈ fs then fs else p :: fs

/-- Delete a file (`fs.unlink`); deleting a missing file leaves the rest. -/
def fsUnlink (fs : FS) (p : String) : FS := fs.filter (fun q => q ≠ p)

/-- The name produced by the k-th draw of `crypto.randomBytes`. -/
def tempName (k : Nat) : String := "temp_" ++ toString k

/-- Outcome of one provider batch API round trip. -/
inductive ApiOutcome
  | ok (text : String) (confidence : Option ℚ) (details : String)
  | fail (message : String)
deriving DecidableEq

/-- The `{text, time, confidence, error, details}` record every batch
adapter resolves with. -/
structure BatchResult where
  text : Option String
  time : Option Nat
  confidence : Option ℚ
  error : Option String
  details : Option String
deriving DecidableEq

/-- The success and failure shapes shared by the three batch adapters:
on success `error = null`; in the catch branch `text`, `confidence` and
`details` are null and `error` carries the message. -/
def runBatchAdapter (api : ApiOutcome) (elapsed : Nat) : BatchResult :=
  match api with
  | .ok t conf det =>
      { text := some t, time := some elapsed, confidence := conf,
        error := none, details := some det }
  | .fail msg =>
      { text := none, time := some elapsed, confidence := none,
        error := some msg, details := none }

/-- `transcribeBatch` of `services/assemblyai-batch.js`: writes the temp
file, uploads and transcribes, and unlinks the temp file on the success
path only — the catch branch returns the error shape without touching the
file system. -/
def aaiTranscribeBatch (api : ApiOutcome) (elapsed : Nat) (fs : FS)
    (ctr : Nat) : FS × Nat × BatchResult :=
  let name := tempName ctr
  let fs1 := fsWrite fs name
  match api with
  | .ok t conf det => (fsUnlink fs1 name, ctr + 1, runBatchAdapter (.ok t conf det) elapsed)
  | .fail msg => (fs1, ctr + 1, runBatchAdapter (.fail msg) elapsed)

/-- `transcribeBatch` of `services/openai-batch.js`: writes the temp file
and unlinks it on success; the catch branch draws a fresh random name and
unlinks that name instead of the file that was written. -/
def oaiTranscribeBatch (api : ApiOutcome) (elapsed : Nat) (fs : FS)
    (ctr : Nat) : FS × Nat × BatchResult :=
  let name := tempName ctr
  let fs1 := fsWrite fs name
  match api with
  | .ok t conf det => (fsUnlink fs1 name, ctr + 1, runBatchAdapter (.ok t conf det) elapsed)
  | .fail msg =>
      let cleanupName := tempName (ctr + 1)
      (fsUnlink fs1 cleanupName, ctr + 2, runBatchAdapter (.fail msg) elapsed)

/-- C2 evaluated at its failing input (code_bug): on the success path both
adapters delete their temp file, but when the provider API call throws, the
AssemblyAI adapter leaves its temp file on disk (its catch branch never
unlinks), and the OpenAI adapter unlinks a freshly drawn random name, so the
file it wrote also stays on disk. -/
theorem C2_temp_file_cleanup_bug :
    (aaiTranscribeBatch (.ok "t" none "d") 5 [] 0).1 = [] ∧
    (oaiTranscribeBatch (.ok "t" none "d") 5 [] 0).1 = [] ∧
    (aaiTranscribeBatch (.fail "network error") 5 [] 0).1 = [tempName 0] ∧
    tempName 0 ∈ (oaiTranscribeBatch (.fail "network error") 5 [] 0).1 := by
  decide

/-! ## Providers, credentials, and the server handlers (`server.js`) -/

/-- The three providers the server knows. -/
inductive Provider
  | assemblyai
  | deepgram
  | openai
deriving DecidableEq

/-- The fixed order in which `server.js` checks the providers. -/
def providerOrder : List Provider := [.assemblyai, .deepgram, .openai]

/-- Core of the `POST /transcribe-batch` handler: each provider in the fixed
order that is both selected and has its credential configured contributes
the entry its adapter resolves with, keyed by the provider.  `keys p` says
whether provider `p`'s API key environment variable is set. -/
def transcribeBatchHandler (keys : Provider → Bool) (services : List Provider)
    (api : Provider → ApiOutcome) (elapsed : Provider → Nat) :
    List (Provider × BatchResult) :=
  (providerOrder.filter fun p => decide (p ∈ services) && keys p).map
    fun p => (p, runBatchAdapter (api p) (elapsed p))

/-- Core of the `startStream` handler: walks the providers in the fixed
order; a selected provider with a configured credential gets a realtime
session appended to the registry; if establishing that session fails the
handler aborts with a `streamError` (second component `false`); providers
without a credential are skipped silently. -/
def startStreamGo (keys createOk : Provider → Bool) (services : List Provider) :
    List Provider → List Provider → List Provider × Bool
  | [], acc => (acc, true)
  | p :: rest, acc =>
      if p ∈ services ∧ keys p = true then
        if createOk p = true then startStreamGo keys createOk services rest (acc ++ [p])
        else (acc, false)
      else startStreamGo keys createOk services rest acc

/-- The `startStream` handler over the three providers: returns the session
registry keys and whether `streamReady` (rather than `streamError`) was
emitted. -/
def startStreamHandler (keys createOk : Provider → Bool)
    (services : List Provider) : List Provider × Bool :=
  startStreamGo keys createOk services providerOrder []

theorem lookup_map_self (g : Provider → BatchResult) (l : List Provider)
    (p : Provider) (hp : p ∈ l) :
    (l.map fun q => (q, g q)).lookup p = some (g p) := by
  induction l with
  | nil => cases hp
  | cons a l ih =>
    by_cases hap : p = a
    · subst hap
      simp [List.lookup]
    · have : p ∈ l := by
        cases hp with
        | head => exact absurd rfl hap
        | tail _ h => exact h
      simp [List.lookup, beq_eq_false_iff_ne.mpr hap, ih this]

theorem lookup_map_self_none (g : Provider → BatchResult) (l : List Provider)
    (p : Provider) (hp : p ∉ l) :
    (l.map fun q => (q, g q)).lookup p = none := by
  induction l with
  | nil => rfl
  | cons a l ih =>
    have hpa : p ≠ a := fun h => hp (h ▸ List.mem_cons_self a l)
    have hpl : p ∉ l := fun h => hp (List.mem_cons_of_mem a h)
    simp [List.lookup, beq_eq_false_iff_ne.mpr hpa, ih hpl]

theorem mem_providerOrder (p : Provider) : p ∈ providerOrder := by
  cases p <;> decide


theorem mem_filter_selected (keys : Provider → Bool) (services : List Provider)
    (p : Provider) :
    p ∈ providerOrder.filter (fun q => decide (q ∈ services) && keys q)
      ↔ p ∈ services ∧ keys p = true := by
  rw [List.mem_filter]
  simp [mem_providerOrder]

/-- C4: for every batch request selecting `N` providers, all with configured
credentials, the response's result map has exactly `N` entries, one per
selected provider; each entry is the `{text, time, confidence, error}`
record its own adapter produced, and a failing provider's entry carries the
failure in its `error` field without disturbing any other provider's
entry. -/
theorem C4_batch_results_shape (keys : Provider → Bool) (services : List Provider)
    (api : Provider → ApiOutcome) (elapsed : Provider → Nat)
    (hnd : services.Nodup) (hk : ∀ p ∈ services, keys p = true) :
    (transcribeBatchHandler keys services api elapsed).length = services.length ∧
    (∀ p ∈ services,
      (transcribeBatchHandler keys services api elapsed).lookup p
        = some (runBatchAdapter (api p) (elapsed p))) ∧
    (∀ p ∈ services, ∀ msg, api p = .fail msg →
      ∃ r, (transcribeBatchHandler keys services api elapsed).lookup p = some r ∧
        r.error = some msg ∧ r.text = none ∧ r.confidence = none ∧
        r.time = some (elapsed p)) := by
  have hfilter : ∀ p, p ∈ providerOrder.filter
      (fun q => decide (q ∈ services) && keys q) ↔ p ∈ services := by
    intro p
    rw [mem_filter_selected]
    exact ⟨fun h => h.1, fun h => ⟨h, hk p h⟩⟩
  have hordernd : providerOrder.Nodup := by decide
  have hlnd : (providerOrder.filter
      (fun q => decide (q ∈ services) && keys q)).Nodup := hordernd.filter _
  refine ⟨?_, ?_, ?_⟩
  · rw [transcribeBatchHandler, List.length_map]
    exact ((List.perm_ext_iff_of_nodup hlnd hnd).mpr hfilter).length_eq
  · intro p hp
    exact lookup_map_self _ _ p ((hfilter p).mpr hp)
  · intro p hp msg hmsg
    refine ⟨runBatchAdapter (api p) (elapsed p),
      lookup_map_self _ _ p ((hfilter p).mpr hp), ?_⟩
    rw [hmsg]
    simp [runBatchAdapter]

/-- Concrete provider outcomes for the C4 witness: AssemblyAI fails,
Deepgram succeeds. -/
def c4Api : Provider → ApiOutcome
  | .assemblyai => .fail "boom"
  | _ => .ok "hi" none "d"

/-- Witness for C4 at a concrete input: two selected providers, one
failing. -/
theorem C4_batch_results_shape_witness :
    (transcribeBatchHandler (fun _ => true)
        [Provider.assemblyai, Provider.deepgram] c4Api (fun _ => 3)).length = 2 ∧
    (transcribeBatchHandler (fun _ => true)
        [Provider.assemblyai, Provider.deepgram] c4Api (fun _ => 3)).lookup
        Provider.assemblyai
      = some { text := none, time := some 3, confidence := none,
               error := some "boom", details := none } ∧
    (transcribeBatchHandler (fun _ => true)
        [Provider.assemblyai, Provider.deepgram] c4Api (fun _ => 3)).lookup
        Provider.deepgram
      = some { text := some "hi", time := some 3, confidence := none,
               error := none, details := some "d" } := by
  have h := C4_batch_results_shape (fun _ => true)
    [Provider.assemblyai, Provider.deepgram] c4Api (fun _ => 3)
    (by decide) (fun p _ => rfl)
  refine ⟨by rw [h.1]; rfl, ?_, ?_⟩
  · rw [h.2.1 Provider.assemblyai (by decide)]
    rfl
  · rw [h.2.1 Provider.deepgram (by decide)]
    rfl

theorem startStreamGo_spec (keys createOk : Provider → Bool)
    (services : List Provider)
    (hcreate : ∀ p ∈ services, keys p = true → createOk p = true) :
    ∀ todo acc, startStreamGo keys createOk services todo acc
      = (acc ++ todo.filter (fun q => decide (q ∈ services) && keys q), true) := by
  intro todo
  induction todo with
  | nil => intro acc; simp [startStreamGo]
  | cons p rest ih =>
    intro acc
    by_cases hp : p ∈ services ∧ keys p = true
    · have hc := hcreate p hp.1 hp.2
      rw [startStreamGo, if_pos hp, if_pos hc, ih]
      simp [List.filter_cons, hp.1, hp.2]
    · rw [startStreamGo, if_neg hp, ih]
      have : (decide (p ∈ services) && keys p) = false := by
        rcases Decidable.not_and_iff_or_not.mp hp with h | h <;> simp [h]
      simp [List.filter_cons, this]

/-- C7: a selected provider whose API credential is not configured is
silently skipped by both the batch handler and the `startStream` handler —
it contributes no result entry and no session — while the request still
succeeds for the remaining providers (assuming the configured providers'
sessions establish). -/
theorem C7_missing_credential_skipped (keys createOk : Provider → Bool)
    (services : List Provider) (api : Provider → ApiOutcome)
    (elapsed : Provider → Nat)
    (hcreate : ∀ p ∈ services, keys p = true → createOk p = true) :
    (∀ p ∈ services, keys p = false →
      (transcribeBatchHandler keys services api elapsed).lookup p = none) ∧
    (∀ p ∈ services, keys p = true →
      (transcribeBatchHandler keys services api elapsed).lookup p
        = some (runBatchAdapter (api p) (elapsed p))) ∧
    (startStreamHandler keys createOk services).2 = true ∧
    (∀ p, keys p = false → p ∉ (startStreamHandler keys createOk services).1) ∧
    (∀ p ∈ services, keys p = true →
      p ∈ (startStreamHandler keys createOk services).1) := by
  have hgo := startStreamGo_spec keys createOk services hcreate providerOrder []
  refine ⟨?_, ?_, ?_, ?_, ?_⟩
  · intro p hp hkey
    apply lookup_map_self_none
    intro hmem
    rw [mem_filter_selected] at hmem
    rw [hkey] at hmem
    exact absurd hmem.2 (by simp)
  · intro p hp hkey
    exact lookup_map_self _ _ p ((mem_filter_selected keys services p).mpr ⟨hp, hkey⟩)
  · rw [startStreamHandler, hgo]
  · intro p hkey hmem
    rw [startStreamHandler, hgo] at hmem
    simp at hmem
    rw [hkey] at hmem
    exact absurd hmem.2.2 (by simp)
  · intro p hp hkey
    rw [startStreamHandler, hgo]
    simp
    exact ⟨mem_providerOrder p, hp, hkey⟩

/-- Credential assignment for the C7 witness: only Deepgram is
configured. -/
def c7Keys : Provider → Bool
  | .deepgram => true
  | _ => false

/-- Witness for C7 at the spec's example: providers
`[assemblyai, deepgram]` with the AssemblyAI credential absent yield a
result map and a session registry containing only Deepgram. -/
theorem C7_missing_credential_skipped_witness :
    (transcribeBatchHandler c7Keys [Provider.assemblyai, Provider.deepgram]
        c4Api (fun _ => 3)).lookup Provider.assemblyai = none ∧
    (transcribeBatchHandler c7Keys [Provider.assemblyai, Provider.deepgram]
        c4Api (fun _ => 3)).lookup Provider.deepgram
      = some (runBatchAdapter (c4Api Provider.deepgram) 3) ∧
    (startStreamHandler c7Keys (fun _ => true)
        [Provider.assemblyai, Provider.deepgram]).2 = true ∧
    Provider.assemblyai ∉ (startStreamHandler c7Keys (fun _ => true)
        [Provider.assemblyai, Provider.deepgram]).1 ∧
    Provider.deepgram ∈ (startStreamHandler c7Keys (fun _ => true)
        [Provider.assemblyai, Provider.deepgram]).1 := by
  have h := C7_missing_credential_skipped c7Keys (fun _ => true)
    [Provider.assemblyai, Provider.deepgram] c4Api (fun _ => 3)
    (fun p _ _ => rfl)
  exact ⟨h.1 Provider.assemblyai (by decide) rfl,
    h.2.1 Provider.deepgram (by decide) rfl,
    h.2.2.1,
    h.2.2.2.1 Provider.assemblyai rfl,
    h.2.2.2.2 Provider.deepgram (by decide) rfl⟩

/-! ## Audio relay (`socket.on('audioData')` in `server.js`) -/

/-- Observable events of the audio relay and of session teardown.  The relay
handler can only call `sendAudio` and emit `serviceError`; a `closeCalled`
event exists in the vocabulary so that "the relay closes no session" is
expressible. -/
inductive RelayEvent
  | sendCalled (service : String) (frameIdx : Nat)
  | serviceErrorEmitted (service : String) (frameIdx : Nat)
  | closeCalled (service : String)
deriving DecidableEq

/-- One firing of the `audioData` handler for the frame with index `i`:
iterates the session registry in order; each `sendAudio` call is wrapped in
its own try/catch whose only effect on failure is a provider-scoped
`serviceError` emit.  A session is abstracted by the set of frame indices on
which its `sendAudio` throws. -/
def handleAudioData (registry : List (String × (Nat → Bool))) (i : Nat) :
    List RelayEvent :=
  registry.flatMap fun s =>
    if s.2 i then [.sendCalled s.1 i, .serviceErrorEmitted s.1 i]
    else [.sendCalled s.1 i]

/-- The relay trace over the first `n` inbound frames. -/
def relayFrames (registry : List (String × (Nat → Bool))) (n : Nat) :
    List RelayEvent :=
  (List.range n).flatMap fun i => handleAudioData registry i

/-- C5: when delivery to one provider's session throws on some frame, the
relay emits a provider-scoped `serviceError` naming that provider, still
calls `sendAudio` on every session in the registry for every frame
(including later frames to the failing provider), and never closes any
session. -/
theorem C5_delivery_failure_isolated (registry : List (String × (Nat → Bool)))
    (n : Nat) (p : String) (b : Nat → Bool) (i : Nat)
    (hp : (p, b) ∈ registry) (hi : i < n) (hthrow : b i = true) :
    RelayEvent.serviceErrorEmitted p i ∈ relayFrames registry n ∧
    (∀ q c, (q, c) ∈ registry → ∀ j, j < n →
      RelayEvent.sendCalled q j ∈ relayFrames registry n) ∧
    (∀ srv, RelayEvent.closeCalled srv ∉ relayFrames registry n) := by
  refine ⟨?_, ?_, ?_⟩
  · rw [relayFrames, List.mem_flatMap]
    refine ⟨i, by simp [hi], ?_⟩
    rw [handleAudioData, List.mem_flatMap]
    exact ⟨(p, b), hp, by simp [hthrow]⟩
  · intro q c hqc j hj
    rw [relayFrames, List.mem_flatMap]
    refine ⟨j, by simp [hj], ?_⟩
    rw [handleAudioData, List.mem_flatMap]
    refine ⟨(q, c), hqc, ?_⟩
    cases hcj : c j <;> simp [hcj]
  · intro srv hmem
    rw [relayFrames, List.mem_flatMap] at hmem
    obtain ⟨j, -, hmem⟩ := hmem
    rw [handleAudioData, List.mem_flatMap] at hmem
    obtain ⟨sess, -, hmem⟩ := hmem
    cases hsj : sess.2 j <;> simp [hsj] at hmem

/-- Witness for C5 at a concrete input: two sessions, the second throwing on
the first of two frames. -/
theorem C5_delivery_failure_isolated_witness :
    RelayEvent.serviceErrorEmitted "assemblyai" 0
        ∈ relayFrames [("deepgram", fun _ => false),
            ("assemblyai", fun i => decide (i = 0))] 2 ∧
    (∀ q c, (q, c) ∈ [("deepgram", fun _ => false),
        ("assemblyai", fun i => decide (i = 0))] → ∀ j, j < 2 →
      RelayEvent.sendCalled q j
        ∈ relayFrames [("deepgram", fun _ => false),
            ("assemblyai", fun i => decide (i = 0))] 2) ∧
    (∀ srv, RelayEvent.closeCalled srv
        ∉ relayFrames [("deepgram", fun _ => false),
            ("assemblyai", fun i => decide (i = 0))] 2) :=
  C5_delivery_failure_isolated
    [("deepgram", fun _ => false), ("assemblyai", fun i => decide (i = 0))]
    2 "assemblyai" (fun i => decide (i = 0)) 0
    (List.Mem.tail _ (List.Mem.head _)) (by decide) (by decide)

/-! ## Session registry teardown (`endStream` / `disconnect` in `server.js`) -/

/-- Observable events of registry teardown. -/
inductive TeardownEvent
  | closeCalled (service : String)
  | closeSucceeded (service : String)
  | closeErrorLogged (service : String)
  | registryCleared
deriving DecidableEq

/-- The `endStream`/`disconnect` teardown: `close()` is called on every
session in the registry, each call wrapped in its own try/catch that only
logs a failure, and afterwards the registry is cleared.  A session is
abstracted by whether its `close()` throws. -/
def removeAllSessions (registry : List (String × Bool)) :
    List (String × Bool) × List TeardownEvent :=
  ([],
   (registry.flatMap fun s =>
      if s.2 then [.closeCalled s.1, .closeErrorLogged s.1]
      else [.closeCalled s.1, .closeSucceeded s.1]) ++ [.registryCleared])

/-- C6: teardown calls `close()` on every session and then clears the
registry; an exception from one session's `close()` is caught and logged
without preventing the close of any other session or the clearing of the
registry. -/
theorem C6_removeAll_closes_all (registry : List (String × Bool)) (p : String)
    (hp : (p, true) ∈ registry) :
    (removeAllSessions registry).1 = [] ∧
    (∀ q b, (q, b) ∈ registry →
      TeardownEvent.closeCalled q ∈ (removeAllSessions registry).2) ∧
    (∀ q, (q, false) ∈ registry →
      TeardownEvent.closeSucceeded q ∈ (removeAllSessions registry).2) ∧
    TeardownEvent.closeErrorLogged p ∈ (removeAllSessions registry).2 ∧
    (removeAllSessions registry).2.getLast? = some TeardownEvent.registryCleared := by
  refine ⟨rfl, ?_, ?_, ?_, ?_⟩
  · intro q b hqb
    apply List.mem_append_left
    rw [List.mem_flatMap]
    refine ⟨(q, b), hqb, ?_⟩
    cases b <;> simp
  · intro q hq
    apply List.mem_append_left
    rw [List.mem_flatMap]
    exact ⟨(q, false), hq, by simp⟩
  · apply List.mem_append_left
    rw [List.mem_flatMap]
    exact ⟨(p, true), hp, by simp⟩
  · exact List.getLast?_concat _

/-- Witness for C6 at a concrete input: two sessions, one throwing on
close. -/
theorem C6_removeAll_closes_all_witness :
    (removeAllSessions [("assemblyai", false), ("deepgram", true)]).1 = [] ∧
    (∀ q b, (q, b) ∈ [("assemblyai", false), ("deepgram", true)] →
      TeardownEvent.closeCalled q
        ∈ (removeAllSessions [("assemblyai", false), ("deepgram", true)]).2) ∧
    (∀ q, (q, false) ∈ [("assemblyai", false), ("deepgram", true)] →
      TeardownEvent.closeSucceeded q
        ∈ (removeAllSessions [("assemblyai", false), ("deepgram", true)]).2) ∧
    TeardownEvent.closeErrorLogged "deepgram"
        ∈ (removeAllSessions [("assemblyai", false), ("deepgram", true)]).2 ∧
    (removeAllSessions [("assemblyai", false), ("deepgram", true)]).2.getLast?
      = some TeardownEvent.registryCleared :=
  C6_removeAll_closes_all [("assemblyai", false), ("deepgram", true)]
    "deepgram" (by decide)

end STT
